/-
Verification of the `armoured-candles` e-paper display driver (panel
EPD 7in5 V2 over a 4-wire SPI-like bus, XIAO ESP32-S3 wiring).

The repository's source files (`src/epdif.h`, `src/epd7in5_V2.h`) fix the
pin bindings, the panel geometry and the driver's method surface; the
method bodies are not part of the repository, so every operational
definition below is modelled from the specification's §4 sequences and is
marked `Modelled from the spec:` in its doc comment.  The driver is
embedded shallowly as functions from an explicit driver state and an
environment (the busy line's behaviour, a function from poll index to
level) to a status, a trace of bus/GPIO events and a successor state.
-/
import Mathlib

namespace Epd

/-! ### Constants fixed by the source headers -/

/-- `#define RST_PIN 4` in `src/epdif.h`. -/
def RST_PIN : Nat := 4

/-- `#define DC_PIN 3` in `src/epdif.h`. -/
def DC_PIN : Nat := 3

/-- `#define CS_PIN 2` in `src/epdif.h`. -/
def CS_PIN : Nat := 2

/-- `#define BUSY_PIN 5` in `src/epdif.h`. -/
def BUSY_PIN : Nat := 5

/-- `#define CLK_PIN 7` in `src/epdif.h`. -/
def CLK_PIN : Nat := 7

/-- `#define DIN_PIN 9` in `src/epdif.h`. -/
def DIN_PIN : Nat := 9

/-- `#define EPD_WIDTH 800` in `src/epd7in5_V2.h`. -/
def EPD_WIDTH : Nat := 800

/-- `#define EPD_HEIGHT 480` in `src/epd7in5_V2.h`. -/
def EPD_HEIGHT : Nat := 480

/-- Frame-buffer byte size of a packed 1-bit-per-pixel buffer:
`width/8 × height` (spec §3, data model). -/
def frameBufferBytes (w h : Nat) : Nat := w / 8 * h

/-- The driver's frame-buffer size for the reference geometry. -/
def FRAME_BYTES : Nat := frameBufferBytes EPD_WIDTH EPD_HEIGHT

/-! ### Events observed by the bus/GPIO adapter

The adapter contract of spec §6 — `digitalWrite`, `digitalRead`,
`delayMs`, `spiTransferByte`, `spiTransferBulk` (the static methods of
`EpdIf` in `src/epdif.h`) — is embedded as a trace of events. -/

/-- One observable interaction with the bus/GPIO adapter. -/
inductive Event where
  /-- `digitalWrite(pin, level)`. -/
  | write (pin level : Nat)
  /-- `digitalRead(pin)` observing `level`. -/
  | read (pin level : Nat)
  /-- `delayMs(ms)`. -/
  | delay (ms : Nat)
  /-- `spiTransferByte(b)`. -/
  | xfer (b : Nat)
  /-- `spiTransferBulk(bs)`. -/
  | xferBulk (bs : List Nat)
  deriving DecidableEq

/-- Result of a driver operation: success, bounded busy-wait expiry, or a
synchronously reported precondition/validation failure (spec §7). -/
inductive Status where
  | ok
  | timeout
  | invalid
  deriving DecidableEq

/-- Which waveform LUT set the controller currently holds (spec §3: a
full-refresh set, a partial-refresh set, or none after reset/sleep). -/
inductive LutMode where
  | unloaded
  | fullLuts
  | partialLuts
  deriving DecidableEq

/-- Panel power state implied by the legal call sequences of spec §4:
not yet initialised, powered and accepting commands, or in deep sleep. -/
inductive Power where
  | uninit
  | powered
  | sleeping
  deriving DecidableEq

/-- The four role pins plus the two bus pins, mirroring the private
members `reset_pin, dc_pin, cs_pin, busy_pin` of class `Epd` in
`src/epd7in5_V2.h` and the bus pins of `src/epdif.h`. -/
structure PinConfig where
  reset_pin : Nat
  dc_pin : Nat
  cs_pin : Nat
  busy_pin : Nat
  clk_pin : Nat
  din_pin : Nat
  deriving DecidableEq

/-- The board's wiring, from the `#define`s of `src/epdif.h`. -/
def epdPins : PinConfig :=
  { reset_pin := RST_PIN, dc_pin := DC_PIN, cs_pin := CS_PIN,
    busy_pin := BUSY_PIN, clk_pin := CLK_PIN, din_pin := DIN_PIN }

/-- Driver state: the pin bindings (fixed at construction) and the
panel-level mode implied by spec §4's state machine. -/
structure DriverSt where
  pins : PinConfig
  power : Power
  lutMode : LutMode
  deriving DecidableEq

/-- The `Epd()` constructor of `src/epd7in5_V2.h` takes no arguments:
construction binds the compile-time pin constants and performs no
hardware I/O (spec §4.1 Construction). -/
def mkEpd : DriverSt :=
  { pins := epdPins, power := Power.uninit, lutMode := LutMode.unloaded }

/-! ### Controller opcodes

Modelled from the spec: §3 lists the controller's instruction set by
name; the concrete byte values are the documented opcode table of this
controller class (the spec defines the protocol shape, not renumerable). -/

def CMD_PANEL_SETTING : Nat := 0x00
def CMD_POWER_SETTING : Nat := 0x01
def CMD_POWER_OFF : Nat := 0x02
def CMD_POWER_ON : Nat := 0x04
def CMD_BOOSTER_SOFT_START : Nat := 0x06
def CMD_DEEP_SLEEP : Nat := 0x07
def CMD_DATA_START_TRANSMISSION_1 : Nat := 0x10
def CMD_DISPLAY_REFRESH : Nat := 0x12
def CMD_DATA_START_TRANSMISSION_2 : Nat := 0x13
def CMD_LUT_VCOM : Nat := 0x20
def CMD_LUT_WW : Nat := 0x21
def CMD_LUT_BW : Nat := 0x22
def CMD_LUT_WB : Nat := 0x23
def CMD_LUT_BB : Nat := 0x24
def CMD_PLL_CONTROL : Nat := 0x30
def CMD_VCOM_DATA_INTERVAL : Nat := 0x50
def CMD_RESOLUTION_SETTING : Nat := 0x61
def CMD_PARTIAL_WINDOW : Nat := 0x90
def CMD_PARTIAL_IN : Nat := 0x91
def CMD_PARTIAL_OUT : Nat := 0x92

/-! ### The two primitive bus operations -/

/-- Modelled from the spec: `SendCommand(byte)` (§4.1, declared in
`src/epd7in5_V2.h`) — set the data/command-select pin to the command
(low) level, assert chip-select, transfer the byte, deassert
chip-select. -/
def SendCommand (p : PinConfig) (command : Nat) : List Event :=
  [Event.write p.dc_pin 0, Event.write p.cs_pin 0,
   Event.xfer command, Event.write p.cs_pin 1]

/-- Modelled from the spec: `SendData(byte)` (§4.1, declared in
`src/epd7in5_V2.h`) — set the data/command-select pin to the data (high)
level, assert chip-select, transfer the byte, deassert chip-select. -/
def SendData (p : PinConfig) (data : Nat) : List Event :=
  [Event.write p.dc_pin 1, Event.write p.cs_pin 0,
   Event.xfer data, Event.write p.cs_pin 1]

/-- One `SendData` per parameter byte of a command. -/
def SendDataList (p : PinConfig) : List Nat → List Event
  | [] => []
  | d :: ds => SendData p d ++ SendDataList p ds

/-- Modelled from the spec: a bulk payload transfer
(`SpiTransferBulk` of `src/epdif.h` under data framing): data/command
pin at the data level, chip-select asserted around the bulk transfer. -/
def SendDataBulk (p : PinConfig) (bs : List Nat) : List Event :=
  [Event.write p.dc_pin 1, Event.write p.cs_pin 0,
   Event.xferBulk bs, Event.write p.cs_pin 1]

/-! ### Reset and busy-wait -/

/-- Fixed hold duration of the reset pulse in milliseconds (spec §4.1:
"fixed hold durations"; the spec fixes no numeric value). -/
def RESET_HOLD_MS : Nat := 200

/-- Modelled from the spec: `Reset()` (§4.1, declared in
`src/epd7in5_V2.h`) — drive the reset pin through a low-then-high pulse
with fixed delays. -/
def Reset (p : PinConfig) : List Event :=
  [Event.write p.reset_pin 0, Event.delay RESET_HOLD_MS,
   Event.write p.reset_pin 1, Event.delay RESET_HOLD_MS]

/-- Poll interval of the busy-wait loop in milliseconds (spec §4.1:
"polls the busy pin at a short fixed interval"). -/
def POLL_INTERVAL_MS : Nat := 10

/-- Maximum number of busy polls before the bounded wait reports a
timeout (spec §7(a): the wait "must be surfaced to the caller as a
distinct status rather than hanging forever"). -/
def BUSY_TIMEOUT_POLLS : Nat := 100

/-- The busy-wait loop: poll `t, t+1, ...` for at most `fuel` polls.
Returns the trace of reads/delays and whether idle was observed. -/
def WaitLoop (p : PinConfig) (busy : Nat → Bool) : Nat → Nat → List Event × Bool
  | 0, _ => ([], false)
  | fuel + 1, t =>
      if busy t then
        let r := WaitLoop p busy fuel (t + 1)
        (Event.read p.busy_pin 1 :: Event.delay POLL_INTERVAL_MS :: r.1, r.2)
      else ([Event.read p.busy_pin 0], true)

/-- Modelled from the spec: `WaitUntilIdle()` (§4.1, §7(a), declared in
`src/epd7in5_V2.h`) — poll the busy input at a fixed interval until it
reports idle, bounded by a timeout; `busy` is the environment's busy
line as a function of the poll index. -/
def WaitUntilIdle (p : PinConfig) (busy : Nat → Bool) : List Event × Bool :=
  WaitLoop p busy BUSY_TIMEOUT_POLLS 0

/-! ### LUT waveform tables

Modelled from the spec: §3 fixes the shape (five fixed-length byte
sequences — VCOM plus the four transition tables — of 42 bytes each in
this controller class, with the full-refresh set distinct from the
partial-refresh set) and §9 leaves the literal waveform bytes to the
controller datasheet; the byte values below are placeholders that keep
the two sets distinct. -/

def LUT_BYTES : Nat := 42

def lut_vcom_full : List Nat := List.replicate LUT_BYTES 0x10
def lut_ww_full : List Nat := List.replicate LUT_BYTES 0x11
def lut_bw_full : List Nat := List.replicate LUT_BYTES 0x12
def lut_wb_full : List Nat := List.replicate LUT_BYTES 0x13
def lut_bb_full : List Nat := List.replicate LUT_BYTES 0x14
def lut_vcom_fast : List Nat := List.replicate LUT_BYTES 0x20
def lut_ww_fast : List Nat := List.replicate LUT_BYTES 0x21
def lut_bw_fast : List Nat := List.replicate LUT_BYTES 0x22
def lut_wb_fast : List Nat := List.replicate LUT_BYTES 0x23
def lut_bb_fast : List Nat := List.replicate LUT_BYTES 0x24

/-- Modelled from the spec: `SetLut_by_host` (§4.1, declared with five
table parameters in `src/epd7in5_V2.h`) — given five byte sequences
(VCOM plus the four transition tables), issue one command + bulk-data
pair per table in fixed order. -/
def SetLut_by_host (p : PinConfig)
    (lut_vcom lut_ww lut_bw lut_wb lut_bb : List Nat) : List Event :=
  SendCommand p CMD_LUT_VCOM ++ SendDataBulk p lut_vcom ++
  SendCommand p CMD_LUT_WW ++ SendDataBulk p lut_ww ++
  SendCommand p CMD_LUT_BW ++ SendDataBulk p lut_bw ++
  SendCommand p CMD_LUT_WB ++ SendDataBulk p lut_wb ++
  SendCommand p CMD_LUT_BB ++ SendDataBulk p lut_bb

/-- The full-refresh LUT load issued by `Init`. -/
def lutLoadFull (p : PinConfig) : List Event :=
  SetLut_by_host p lut_vcom_full lut_ww_full lut_bw_full lut_wb_full lut_bb_full

/-- The partial-refresh LUT load issued when switching waveform sets. -/
def lutLoadFast (p : PinConfig) : List Event :=
  SetLut_by_host p lut_vcom_fast lut_ww_fast lut_bw_fast lut_wb_fast lut_bb_fast

/-! ### Initialisation -/

/-- Modelled from the spec: the power-setting, booster-soft-start and
power-on commands of `Init`'s first command phase (§4.1; parameter bytes
are representative placeholders, the spec fixes none). -/
def powerPhase (p : PinConfig) : List Event :=
  SendCommand p CMD_POWER_SETTING ++ SendDataList p [0x07, 0x07, 0x3F, 0x3F] ++
  SendCommand p CMD_BOOSTER_SOFT_START ++ SendDataList p [0x17, 0x17, 0x27, 0x17] ++
  SendCommand p CMD_POWER_ON

/-- Modelled from the spec: the panel-setting, PLL/frequency,
resolution-setting and VCOM-and-data-interval commands of `Init`'s
second command phase (§4.1).  The resolution payload encodes the
source geometry: `0x0320 = 800`, `0x01E0 = 480`. -/
def panelPhase (p : PinConfig) : List Event :=
  SendCommand p CMD_PANEL_SETTING ++ SendDataList p [0x3F] ++
  SendCommand p CMD_PLL_CONTROL ++ SendDataList p [0x06] ++
  SendCommand p CMD_RESOLUTION_SETTING ++ SendDataList p [0x03, 0x20, 0x01, 0xE0] ++
  SendCommand p CMD_VCOM_DATA_INTERVAL ++ SendDataList p [0x10, 0x07]

/-- Modelled from the spec: `Init()` (§4.1, declared in
`src/epd7in5_V2.h`) — hardware reset pulse, wait for busy to clear,
power commands, wait for busy to clear, panel commands, full-refresh LUT
load via `SetLut_by_host`, then success; a busy-wait that expires
returns the timeout status instead (§7(a)).  `busy1`/`busy2` are the
busy line's behaviour at the two waits. -/
def Init (s : DriverSt) (busy1 busy2 : Nat → Bool) : Status × List Event × DriverSt :=
  let rt := Reset s.pins
  let w1 := WaitUntilIdle s.pins busy1
  if w1.2 then
    let w2 := WaitUntilIdle s.pins busy2
    if w2.2 then
      (Status.ok,
       rt ++ w1.1 ++ powerPhase s.pins ++ w2.1 ++ panelPhase s.pins ++ lutLoadFull s.pins,
       { s with power := Power.powered, lutMode := LutMode.fullLuts })
    else
      (Status.timeout, rt ++ w1.1 ++ powerPhase s.pins ++ w2.1,
       { s with power := Power.uninit, lutMode := LutMode.unloaded })
  else
    (Status.timeout, rt ++ w1.1,
     { s with power := Power.uninit, lutMode := LutMode.unloaded })

/-! ### Frame operations -/

/-- Modelled from the spec: `DisplayFrame(buffer)` (§4.1, §7(b), §8,
declared in `src/epd7in5_V2.h`) — validate the power state and the
buffer length (a mismatch is reported synchronously and nothing is
transmitted), then issue the data-start-transmission-2 (new image)
command, a bulk transfer of the entire buffer, the display-refresh
command, and wait until idle. -/
def DisplayFrame (s : DriverSt) (busy : Nat → Bool) (buf : List Nat) :
    Status × List Event × DriverSt :=
  if s.power = Power.powered then
    if buf.length = FRAME_BYTES then
      let w := WaitUntilIdle s.pins busy
      (if w.2 then Status.ok else Status.timeout,
       SendCommand s.pins CMD_DATA_START_TRANSMISSION_2 ++ SendDataBulk s.pins buf ++
         SendCommand s.pins CMD_DISPLAY_REFRESH ++ w.1,
       s)
    else (Status.invalid, [], s)
  else (Status.invalid, [], s)

/-- Modelled from the spec: the partial window parameters for the full
panel extent (§4.1: byte-packed x/y/width/height; here x 0..799,
y 0..479, both-plane scan). -/
def partialWindowFull : List Nat :=
  [0x00, 0x00, 0x03, 0x1F, 0x00, 0x00, 0x01, 0xDF, 0x01]

/-- The command/data sequence of a partial update proper: partial
window, partial-in, old plane, new plane, refresh, the busy-wait trace
`wtr`, partial-out (spec §4.1 `DisplayFramePartial`). -/
def partialUpdate (p : PinConfig) (oldBuf newBuf : List Nat) (wtr : List Event) :
    List Event :=
  SendCommand p CMD_PARTIAL_WINDOW ++ SendDataList p partialWindowFull ++
  SendCommand p CMD_PARTIAL_IN ++
  SendCommand p CMD_DATA_START_TRANSMISSION_1 ++ SendDataBulk p oldBuf ++
  SendCommand p CMD_DATA_START_TRANSMISSION_2 ++ SendDataBulk p newBuf ++
  SendCommand p CMD_DISPLAY_REFRESH ++ wtr ++
  SendCommand p CMD_PARTIAL_OUT

/-- Modelled from the spec: `DisplayFramePartial(oldBuffer, newBuffer)`
(§4.1, §7(b), declared in `src/epd7in5_V2.h`) — validate the power
state, both buffer lengths and that a LUT set is loaded; switch to the
partial-refresh LUT set first when the full-refresh tables are the ones
loaded (the mandatory LUT-switch step); then issue the partial update
sequence. -/
def DisplayFramePartial (s : DriverSt) (busy : Nat → Bool)
    (oldBuf newBuf : List Nat) : Status × List Event × DriverSt :=
  if s.power = Power.powered then
    if oldBuf.length = FRAME_BYTES then
      if newBuf.length = FRAME_BYTES then
        if s.lutMode = LutMode.unloaded then (Status.invalid, [], s)
        else
          let sw := if s.lutMode = LutMode.fullLuts then lutLoadFast s.pins else []
          let w := WaitUntilIdle s.pins busy
          (if w.2 then Status.ok else Status.timeout,
           sw ++ partialUpdate s.pins oldBuf newBuf w.1,
           { s with lutMode := LutMode.partialLuts })
      else (Status.invalid, [], s)
    else (Status.invalid, [], s)
  else (Status.invalid, [], s)

/-- Modelled from the spec: `Sleep()` (§4.1, declared in
`src/epd7in5_V2.h`) — issue the VCOM-off (power-off) and deep-sleep
commands; the deep-sleep check byte follows the command. -/
def Sleep (p : PinConfig) : List Event :=
  SendCommand p CMD_POWER_OFF ++
  SendCommand p CMD_DEEP_SLEEP ++ SendData p 0xA5

/-- The all-white (all-one-bit) frame buffer of the geometry byte size. -/
def allWhiteBuffer : List Nat := List.replicate FRAME_BYTES 0xFF

/-- Modelled from the spec: `Clear()` (§4.1, declared in
`src/epd7in5_V2.h`) — build an all-one-bit buffer of the correct size
and call `DisplayFrame` with it. -/
def Clear (s : DriverSt) (busy : Nat → Bool) : Status × List Event × DriverSt :=
  DisplayFrame s busy allWhiteBuffer

/-! ### The guarded operation layer

Modelled from the spec: §8 "After Sleep(), the only valid next operation
is Reset() or Init(); any other call is a precondition violation" — the
driver's public methods (the surface of class `Epd` in
`src/epd7in5_V2.h`) as one step relation that enforces the call-sequence
preconditions of the panel-level state machine (§4.1). -/

/-- One invocation of a public driver method, with the environment data
(busy-line behaviour, buffers) it consumes. -/
inductive Op where
  | opInit (busy1 busy2 : Nat → Bool)
  | opReset
  | opWaitUntilIdle (busy : Nat → Bool)
  | opDisplayFrame (busy : Nat → Bool) (buf : List Nat)
  | opDisplayFramePartial (busy : Nat → Bool) (oldBuf newBuf : List Nat)
  | opSendCommand (command : Nat)
  | opSendData (data : Nat)
  | opSleep
  | opClear (busy : Nat → Bool)

/-- The operations that involve a hardware reset and so may wake the
controller from deep sleep (spec §4.1 `Sleep`). -/
def Op.isWake : Op → Bool
  | Op.opInit _ _ => true
  | Op.opReset => true
  | _ => false

/-- One step of the guarded driver: `Reset`/`Init` are always accepted
(and leave the controller powered); every other method requires the
powered state and is otherwise a reported precondition violation that
touches neither the bus nor the state. -/
def stepOp (s : DriverSt) : Op → Status × List Event × DriverSt
  | Op.opInit busy1 busy2 => Init s busy1 busy2
  | Op.opReset =>
      (Status.ok, Reset s.pins,
       { s with power := Power.powered, lutMode := LutMode.unloaded })
  | Op.opWaitUntilIdle busy =>
      if s.power = Power.powered then
        let w := WaitUntilIdle s.pins busy
        (if w.2 then Status.ok else Status.timeout, w.1, s)
      else (Status.invalid, [], s)
  | Op.opDisplayFrame busy buf => DisplayFrame s busy buf
  | Op.opDisplayFramePartial busy oldBuf newBuf =>
      DisplayFramePartial s busy oldBuf newBuf
  | Op.opSendCommand command =>
      if s.power = Power.powered then (Status.ok, SendCommand s.pins command, s)
      else (Status.invalid, [], s)
  | Op.opSendData data =>
      if s.power = Power.powered then (Status.ok, SendData s.pins data, s)
      else (Status.invalid, [], s)
  | Op.opSleep =>
      if s.power = Power.powered then
        (Status.ok, Sleep s.pins,
         { s with power := Power.sleeping, lutMode := LutMode.unloaded })
      else (Status.invalid, [], s)
  | Op.opClear busy => Clear s busy

/-- Run a sequence of operations, concatenating their bus traces. -/
def runOps (s : DriverSt) : List Op → List Event × DriverSt
  | [] => ([], s)
  | op :: ops =>
      let r := stepOp s op
      let rest := runOps r.2.2 ops
      (r.2.1 ++ rest.1, rest.2)

/-! ### The adapter's view of the bus

An independent observer that replays a trace tracking the levels of the
data/command-select and chip-select pins, recording what each single-byte
transfer "sees" — the observable of spec §8's command/data framing
property. -/

/-- The two framing pin levels as the adapter sees them. -/
structure BusView where
  dc : Nat
  cs : Nat
  deriving DecidableEq

/-- Replay one event over the framing view. -/
def busStep (p : PinConfig) (v : BusView) : Event → BusView
  | Event.write pin level =>
      if pin = p.dc_pin then { v with dc := level }
      else if pin = p.cs_pin then { v with cs := level }
      else v
  | _ => v

/-- The framing view after a whole trace. -/
def busEnd (p : PinConfig) (v : BusView) : List Event → BusView
  | [] => v
  | e :: tr => busEnd p (busStep p v e) tr

/-- The (dc level, cs level, byte) observed at each single-byte transfer
of a trace. -/
def xferViews (p : PinConfig) (v : BusView) : List Event → List (Nat × Nat × Nat)
  | [] => []
  | Event.xfer b :: tr => (v.dc, v.cs, b) :: xferViews p v tr
  | e :: tr => xferViews p (busStep p v e) tr

/-- The LUT-register selector opcodes. -/
def lutCommands : List Nat :=
  [CMD_LUT_VCOM, CMD_LUT_WW, CMD_LUT_BW, CMD_LUT_WB, CMD_LUT_BB]

/-- How many LUT-table loads a trace holds: single-byte transfers that
the adapter observes under command framing (dc low) and whose byte is a
LUT-register selector. -/
def lutLoadCount (tr : List Event) : Nat :=
  ((xferViews epdPins { dc := 1, cs := 1 } tr).filter
    (fun o => o.1 == 0 && lutCommands.contains o.2.2)).length

/-! ### Concrete states and environments for witnesses -/

/-- A busy line that reports idle at once. -/
def idleLine : Nat → Bool := fun _ => false

/-- A busy line that never reports idle. -/
def stuckLine : Nat → Bool := fun _ => true

/-- A powered driver holding the full-refresh LUT set, as `Init`
leaves it. -/
def epdReadyFull : DriverSt :=
  { pins := epdPins, power := Power.powered, lutMode := LutMode.fullLuts }

/-- A driver in deep sleep. -/
def epdAsleep : DriverSt :=
  { pins := epdPins, power := Power.sleeping, lutMode := LutMode.unloaded }

/-- An all-zero frame buffer of the geometry byte size. -/
def zeroBuffer : List Nat := List.replicate FRAME_BYTES 0

/-- How many `digitalWrite(pin, level)` events a trace holds. -/
def writeCount (pin level : Nat) : List Event → Nat
  | [] => 0
  | Event.write q l :: tr =>
      (if q = pin ∧ l = level then 1 else 0) + writeCount pin level tr
  | _ :: tr => writeCount pin level tr

/-! ### Helper lemmas -/

theorem waitLoop_length (p : PinConfig) (busy : Nat → Bool) :
    ∀ fuel t : Nat, (WaitLoop p busy fuel t).1.length ≤ 2 * fuel := by
  intro fuel
  induction fuel with
  | zero => intro t; simp [WaitLoop]
  | succ n ih =>
      intro t
      by_cases h : busy t
      · simp only [WaitLoop, h, if_pos, List.length_cons]
        have := ih (t + 1)
        omega
      · simp only [WaitLoop, h, Bool.false_eq_true, if_neg, not_false_iff,
          List.length_singleton]
        omega

theorem waitLoop_stuck (p : PinConfig) (busy : Nat → Bool)
    (hb : ∀ i, busy i = true) :
    ∀ fuel t : Nat, (WaitLoop p busy fuel t).2 = false := by
  intro fuel
  induction fuel with
  | zero => intro t; simp [WaitLoop]
  | succ n ih => intro t; simp [WaitLoop, hb t, ih (t + 1)]

theorem waitLoop_idle (p : PinConfig) (busy : Nat → Bool) :
    ∀ fuel t : Nat, (∃ i, i < fuel ∧ busy (t + i) = false) →
      (WaitLoop p busy fuel t).2 = true := by
  intro fuel
  induction fuel with
  | zero =>
      intro t h
      obtain ⟨i, hi, _⟩ := h
      exact absurd hi (Nat.not_lt_zero i)
  | succ n ih =>
      intro t h
      by_cases hb : busy t
      · obtain ⟨i, hi, hidle⟩ := h
        have hi0 : i ≠ 0 := by
          intro e
          rw [e, Nat.add_zero, hb] at hidle
          cases hidle
        obtain ⟨j, rfl⟩ := Nat.exists_eq_succ_of_ne_zero hi0
        simp only [WaitLoop, hb, if_pos]
        apply ih
        refine ⟨j, by omega, ?_⟩
        have e : t + 1 + j = t + (j + 1) := by omega
        rw [e]
        exact hidle
      · simp [WaitLoop, hb]

theorem DisplayFrame_state (s : DriverSt) (busy : Nat → Bool) (buf : List Nat) :
    (DisplayFrame s busy buf).2.2 = s := by
  unfold DisplayFrame
  by_cases h1 : s.power = Power.powered <;>
    by_cases h2 : buf.length = FRAME_BYTES <;> simp [h1, h2]

theorem DisplayFramePartial_pins (s : DriverSt) (busy : Nat → Bool)
    (oldBuf newBuf : List Nat) :
    (DisplayFramePartial s busy oldBuf newBuf).2.2.pins = s.pins := by
  unfold DisplayFramePartial
  by_cases h1 : s.power = Power.powered <;>
    by_cases h2 : oldBuf.length = FRAME_BYTES <;>
      by_cases h3 : newBuf.length = FRAME_BYTES <;>
        by_cases h4 : s.lutMode = LutMode.unloaded <;> simp [h1, h2, h3, h4]

theorem Init_pins (s : DriverSt) (busy1 busy2 : Nat → Bool) :
    (Init s busy1 busy2).2.2.pins = s.pins := by
  unfold Init
  by_cases h1 : (WaitUntilIdle s.pins busy1).2 <;>
    by_cases h2 : (WaitUntilIdle s.pins busy2).2 <;> simp [h1, h2]

theorem Init_ok_power (s : DriverSt) (busy1 busy2 : Nat → Bool)
    (h : (Init s busy1 busy2).1 = Status.ok) :
    (Init s busy1 busy2).2.2.power = Power.powered := by
  unfold Init at h ⊢
  by_cases h1 : (WaitUntilIdle s.pins busy1).2
  · by_cases h2 : (WaitUntilIdle s.pins busy2).2
    · simp [h1, h2]
    · simp [h1, h2] at h
  · simp [h1] at h

theorem stepOp_pins (s : DriverSt) (op : Op) : (stepOp s op).2.2.pins = s.pins := by
  cases op with
  | opInit busy1 busy2 => exact Init_pins s busy1 busy2
  | opReset => rfl
  | opWaitUntilIdle busy =>
      by_cases h : s.power = Power.powered <;> simp [stepOp, h]
  | opDisplayFrame busy buf =>
      show (DisplayFrame s busy buf).2.2.pins = s.pins
      rw [DisplayFrame_state]
  | opDisplayFramePartial busy oldBuf newBuf =>
      exact DisplayFramePartial_pins s busy oldBuf newBuf
  | opSendCommand command =>
      by_cases h : s.power = Power.powered <;> simp [stepOp, h]
  | opSendData data =>
      by_cases h : s.power = Power.powered <;> simp [stepOp, h]
  | opSleep =>
      by_cases h : s.power = Power.powered <;> simp [stepOp, h]
  | opClear busy =>
      show (Clear s busy).2.2.pins = s.pins
      unfold Clear
      rw [DisplayFrame_state]

theorem stepOp_sleeping (s : DriverSt) (h : s.power = Power.sleeping) :
    ∀ op : Op, op.isWake = false → stepOp s op = (Status.invalid, [], s) := by
  intro op hw
  have hp : ¬ s.power = Power.powered := by rw [h]; intro hc; cases hc
  cases op with
  | opInit busy1 busy2 => simp [Op.isWake] at hw
  | opReset => simp [Op.isWake] at hw
  | opWaitUntilIdle busy => simp [stepOp, hp]
  | opDisplayFrame busy buf => simp [stepOp, DisplayFrame, hp]
  | opDisplayFramePartial busy oldBuf newBuf =>
      simp [stepOp, DisplayFramePartial, hp]
  | opSendCommand command => simp [stepOp, hp]
  | opSendData data => simp [stepOp, hp]
  | opSleep => simp [stepOp, hp]
  | opClear busy => simp [stepOp, Clear, DisplayFrame, hp]

theorem runOps_sleeping (s : DriverSt) (h : s.power = Power.sleeping) :
    ∀ ops : List Op, (∀ op ∈ ops, op.isWake = false) → runOps s ops = ([], s) := by
  intro ops
  induction ops with
  | nil => intro _; rfl
  | cons op ops ih =>
      intro hall
      have h1 := stepOp_sleeping s h op (hall op (List.mem_cons_self op ops))
      have ih2 := ih (fun o ho => hall o (List.mem_cons_of_mem op ho))
      simp [runOps, h1, ih2]

/-! ### The claims -/

/-- C1: whenever `DisplayFramePartial` is called while the full-refresh
LUT set is the one loaded, it either fails validation (reporting
`invalid` and touching neither bus nor state) or its trace begins with
the switch to the partial-refresh LUT set, before any transmission, and
it leaves the partial set active; a partial refresh never runs with the
full-refresh waveform tables still loaded. -/
theorem C1_lut_switch (s : DriverSt) (busy : Nat → Bool) (oldBuf newBuf : List Nat)
    (h : s.lutMode = LutMode.fullLuts) :
    DisplayFramePartial s busy oldBuf newBuf = (Status.invalid, [], s) ∨
    ((DisplayFramePartial s busy oldBuf newBuf).2.1 =
        lutLoadFast s.pins ++
          partialUpdate s.pins oldBuf newBuf (WaitUntilIdle s.pins busy).1 ∧
      (DisplayFramePartial s busy oldBuf newBuf).2.2.lutMode = LutMode.partialLuts) := by
  unfold DisplayFramePartial
  by_cases h1 : s.power = Power.powered
  · by_cases h2 : oldBuf.length = FRAME_BYTES
    · by_cases h3 : newBuf.length = FRAME_BYTES
      · right
        simp [h1, h2, h3, h]
      · left
        simp [h1, h2, h3]
    · left
      simp [h1, h2]
  · left
    simp [h1]

/-- C1 witness: a concrete powered driver holding the full-refresh LUTs,
with valid buffers and an idle busy line. -/
theorem C1_witness :
    DisplayFramePartial epdReadyFull idleLine zeroBuffer zeroBuffer =
        (Status.invalid, [], epdReadyFull) ∨
    ((DisplayFramePartial epdReadyFull idleLine zeroBuffer zeroBuffer).2.1 =
        lutLoadFast epdReadyFull.pins ++
          partialUpdate epdReadyFull.pins zeroBuffer zeroBuffer
            (WaitUntilIdle epdReadyFull.pins idleLine).1 ∧
      (DisplayFramePartial epdReadyFull idleLine zeroBuffer zeroBuffer).2.2.lutMode =
        LutMode.partialLuts) :=
  C1_lut_switch epdReadyFull idleLine zeroBuffer zeroBuffer rfl

/-- C2 counterexample: on a concrete successful run of `Init`, the bus
trace contains five LUT-table loads (command-framed transfers of a
LUT-register selector opcode) — the VCOM table plus the four transition
tables, matching `SetLut_by_host`'s five table parameters in
`src/epd7in5_V2.h` — and not four as the claim states. -/
theorem C2_counterexample :
    (Init mkEpd idleLine idleLine).1 = Status.ok ∧
    lutLoadCount (Init mkEpd idleLine idleLine).2.1 = 5 ∧
    ¬ lutLoadCount (Init mkEpd idleLine idleLine).2.1 = 4 := by
  refine ⟨by decide, by decide, by decide⟩

/-- C2 (amended): every successful run of `Init` performs exactly, in
order: the hardware reset pulse, a wait for busy to clear, the
power-setting/booster-soft-start/power-on commands, a wait for busy to
clear, the panel-setting/PLL/resolution/VCOM-and-data-interval commands,
the load of the full-refresh LUT set as five command-plus-bulk-data
pairs (the VCOM table plus the four transition tables), and returns the
success status; both waits observed idle. -/
theorem C2_init_sequence (s : DriverSt) (busy1 busy2 : Nat → Bool)
    (h : (Init s busy1 busy2).1 = Status.ok) :
    Init s busy1 busy2 =
      (Status.ok,
       Reset s.pins ++ (WaitUntilIdle s.pins busy1).1 ++ powerPhase s.pins ++
         (WaitUntilIdle s.pins busy2).1 ++ panelPhase s.pins ++ lutLoadFull s.pins,
       { s with power := Power.powered, lutMode := LutMode.fullLuts }) ∧
    (WaitUntilIdle s.pins busy1).2 = true ∧
    (WaitUntilIdle s.pins busy2).2 = true := by
  unfold Init at h ⊢
  by_cases h1 : (WaitUntilIdle s.pins busy1).2
  · by_cases h2 : (WaitUntilIdle s.pins busy2).2
    · simp [h1, h2]
    · simp [h1, h2] at h
  · simp [h1] at h

/-- C2 witness: the amended sequence on a concrete fresh driver with an
idle busy line. -/
theorem C2_witness :
    Init mkEpd idleLine idleLine =
      (Status.ok,
       Reset mkEpd.pins ++ (WaitUntilIdle mkEpd.pins idleLine).1 ++
         powerPhase mkEpd.pins ++ (WaitUntilIdle mkEpd.pins idleLine).1 ++
         panelPhase mkEpd.pins ++ lutLoadFull mkEpd.pins,
       { mkEpd with power := Power.powered, lutMode := LutMode.fullLuts }) ∧
    (WaitUntilIdle mkEpd.pins idleLine).2 = true ∧
    (WaitUntilIdle mkEpd.pins idleLine).2 = true :=
  C2_init_sequence mkEpd idleLine idleLine (by decide)

/-- C3: against a busy line that never reports idle, `WaitUntilIdle`
returns the distinct non-success (timeout) result after a bounded trace
instead of polling forever, and `Init` (whose first busy-wait it is)
reports the timeout status; when the busy line does report idle within
the bound, `WaitUntilIdle` returns success. -/
theorem C3_bounded_wait (busy : Nat → Bool) (s : DriverSt) (busy2 : Nat → Bool) :
    ((∀ t, busy t = true) →
        (WaitUntilIdle s.pins busy).2 = false ∧
        (WaitUntilIdle s.pins busy).1.length ≤ 2 * BUSY_TIMEOUT_POLLS ∧
        (Init s busy busy2).1 = Status.timeout) ∧
    ((∃ t, t < BUSY_TIMEOUT_POLLS ∧ busy t = false) →
        (WaitUntilIdle s.pins busy).2 = true) := by
  constructor
  · intro hb
    have hstuck : (WaitUntilIdle s.pins busy).2 = false :=
      waitLoop_stuck s.pins busy hb BUSY_TIMEOUT_POLLS 0
    refine ⟨hstuck, waitLoop_length s.pins busy BUSY_TIMEOUT_POLLS 0, ?_⟩
    simp [Init, hstuck]
  · intro h
    obtain ⟨t, ht, hidle⟩ := h
    apply waitLoop_idle
    refine ⟨t, ht, ?_⟩
    rw [Nat.zero_add]
    exact hidle

/-- C4: for every powered driver and every buffer of the geometry byte
size, `DisplayFrame` issues exactly the data-start-transmission-2
command, the bulk transfer of the entire buffer, the display-refresh
command and the busy-wait, in that order with nothing interleaved, and
leaves the driver state unchanged. -/
theorem C4_full_frame_sequence (s : DriverSt) (busy : Nat → Bool) (buf : List Nat)
    (hp : s.power = Power.powered) (hl : buf.length = FRAME_BYTES) :
    DisplayFrame s busy buf =
      ((if (WaitUntilIdle s.pins busy).2 then Status.ok else Status.timeout),
       SendCommand s.pins CMD_DATA_START_TRANSMISSION_2 ++ SendDataBulk s.pins buf ++
         SendCommand s.pins CMD_DISPLAY_REFRESH ++ (WaitUntilIdle s.pins busy).1,
       s) := by
  unfold DisplayFrame
  simp [hp, hl]

/-- C4 witness: a concrete powered driver, idle busy line and a
48000-byte buffer. -/
theorem C4_witness :
    DisplayFrame epdReadyFull idleLine zeroBuffer =
      ((if (WaitUntilIdle epdReadyFull.pins idleLine).2 then Status.ok
        else Status.timeout),
       SendCommand epdReadyFull.pins CMD_DATA_START_TRANSMISSION_2 ++
         SendDataBulk epdReadyFull.pins zeroBuffer ++
         SendCommand epdReadyFull.pins CMD_DISPLAY_REFRESH ++
         (WaitUntilIdle epdReadyFull.pins idleLine).1,
       epdReadyFull) :=
  C4_full_frame_sequence epdReadyFull idleLine zeroBuffer rfl
    (by simp [zeroBuffer])

/-- C5: in every `SendCommand` the adapter observes exactly one
single-byte transfer, with the data/command pin at the command (low)
level and chip-select asserted (low); in every `SendData` the one
transfer is observed with the data/command pin at the data (high) level
and chip-select asserted; in both, chip-select is asserted by exactly
one write and released by exactly one write, and is back at the
deasserted level when the call ends. -/
theorem C5_framing (v : BusView) (c d : Nat) :
    xferViews epdPins v (SendCommand epdPins c) = [(0, 0, c)] ∧
    xferViews epdPins v (SendData epdPins d) = [(1, 0, d)] ∧
    (busEnd epdPins v (SendCommand epdPins c)).cs = 1 ∧
    (busEnd epdPins v (SendData epdPins d)).cs = 1 ∧
    writeCount CS_PIN 0 (SendCommand epdPins c) = 1 ∧
    writeCount CS_PIN 1 (SendCommand epdPins c) = 1 ∧
    writeCount CS_PIN 0 (SendData epdPins d) = 1 ∧
    writeCount CS_PIN 1 (SendData epdPins d) = 1 := by
  refine ⟨?_, ?_, ?_, ?_, ?_, ?_, ?_, ?_⟩ <;>
    simp [SendCommand, SendData, xferViews, busStep, busEnd, writeCount,
      epdPins, DC_PIN, CS_PIN]

/-- C6: `DisplayFrame` with a buffer whose length differs from the
geometry byte size reports a validation failure and transmits nothing
over the bus (empty trace, state unchanged). -/
theorem C6_bad_length (s : DriverSt) (busy : Nat → Bool) (buf : List Nat)
    (h : ¬ buf.length = FRAME_BYTES) :
    DisplayFrame s busy buf = (Status.invalid, [], s) := by
  unfold DisplayFrame
  by_cases h1 : s.power = Power.powered <;> simp [h1, h]

/-- C6 witness: the empty buffer (length 0 ≠ 48000) on a concrete
powered driver. -/
theorem C6_witness :
    DisplayFrame epdReadyFull idleLine [] = (Status.invalid, [], epdReadyFull) :=
  C6_bad_length epdReadyFull idleLine [] (by decide)

/-- C7: from the deep-sleep state, every driver operation other than
`Reset`/`Init` is a reported precondition violation that touches neither
the bus nor the state; no sequence of such operations produces any bus
event or leaves the sleeping state (the transition is one-way), while
`Reset`, and `Init` when it succeeds, restore the powered state. -/
theorem C7_sleep_one_way (s : DriverSt) (h : s.power = Power.sleeping) :
    (∀ op : Op, op.isWake = false → stepOp s op = (Status.invalid, [], s)) ∧
    (∀ ops : List Op, (∀ op ∈ ops, op.isWake = false) → runOps s ops = ([], s)) ∧
    (stepOp s Op.opReset).2.2.power = Power.powered ∧
    (∀ busy1 busy2 : Nat → Bool,
        (stepOp s (Op.opInit busy1 busy2)).1 = Status.ok →
        (stepOp s (Op.opInit busy1 busy2)).2.2.power = Power.powered) :=
  ⟨stepOp_sleeping s h, runOps_sleeping s h, rfl,
   fun busy1 busy2 hok => Init_ok_power s busy1 busy2 hok⟩

/-- C7 witness: the concrete sleeping driver. -/
theorem C7_witness :
    (∀ op : Op, op.isWake = false →
        stepOp epdAsleep op = (Status.invalid, [], epdAsleep)) ∧
    (∀ ops : List Op, (∀ op ∈ ops, op.isWake = false) →
        runOps epdAsleep ops = ([], epdAsleep)) ∧
    (stepOp epdAsleep Op.opReset).2.2.power = Power.powered ∧
    (∀ busy1 busy2 : Nat → Bool,
        (stepOp epdAsleep (Op.opInit busy1 busy2)).1 = Status.ok →
        (stepOp epdAsleep (Op.opInit busy1 busy2)).2.2.power = Power.powered) :=
  C7_sleep_one_way epdAsleep rfl

/-- C8: `Clear` equals `DisplayFrame` applied to the all-one-bit buffer
of exactly the geometry byte size, and `Clear` followed by
`DisplayFrame` on the all-white buffer issues the same bus sequence
twice with the same status (the blank operation is idempotent). -/
theorem C8_clear_composition (s : DriverSt) (busy : Nat → Bool) :
    Clear s busy = DisplayFrame s busy allWhiteBuffer ∧
    allWhiteBuffer.length = FRAME_BYTES ∧
    (Clear s busy).2.1 = (DisplayFrame (Clear s busy).2.2 busy allWhiteBuffer).2.1 ∧
    (Clear s busy).1 = (DisplayFrame (Clear s busy).2.2 busy allWhiteBuffer).1 := by
  have hs : (Clear s busy).2.2 = s := DisplayFrame_state s busy allWhiteBuffer
  refine ⟨rfl, by simp [allWhiteBuffer], ?_, ?_⟩
  · rw [hs]; rfl
  · rw [hs]; rfl

/-- C9: for every geometry with width a multiple of 8 and positive
height, the packed 1-bit-per-pixel buffer size `width/8 × height`
accounts for every pixel exactly (`bytes × 8 = width × height`), and the
driver's frame-buffer size for the header's 800×480 panel is exactly
48000 bytes. -/
theorem C9_buffer_size :
    (∀ w h : Nat, w % 8 = 0 → 0 < h → frameBufferBytes w h * 8 = w * h) ∧
    FRAME_BYTES = frameBufferBytes EPD_WIDTH EPD_HEIGHT ∧
    FRAME_BYTES = 48000 := by
  refine ⟨?_, rfl, by decide⟩
  intro w h hw _
  have hd : 8 ∣ w := Nat.dvd_of_mod_eq_zero hw
  simp only [frameBufferBytes]
  calc w / 8 * h * 8 = w / 8 * 8 * h := by ring
    _ = w * h := by rw [Nat.div_mul_cancel hd]

/-- C10: the constructed driver's pin bindings are the compile-time
constants reset=4, data/command=3, chip-select=2, busy=5, clock=7,
data-in=9 of `src/epdif.h`; the six values are pairwise distinct; the
no-argument constructor offers no way to choose them, and no driver
operation ever changes them. -/
theorem C10_pin_bindings :
    mkEpd.pins = epdPins ∧
    (epdPins.reset_pin = 4 ∧ epdPins.dc_pin = 3 ∧ epdPins.cs_pin = 2 ∧
      epdPins.busy_pin = 5 ∧ epdPins.clk_pin = 7 ∧ epdPins.din_pin = 9) ∧
    List.Pairwise (fun a b => ¬ a = b)
      [epdPins.reset_pin, epdPins.dc_pin, epdPins.cs_pin,
       epdPins.busy_pin, epdPins.clk_pin, epdPins.din_pin] ∧
    ∀ (s : DriverSt) (op : Op), (stepOp s op).2.2.pins = s.pins :=
  ⟨rfl, by decide, by decide, stepOp_pins⟩

end Epd
